import Mathlib

/-!
Verification of the `SignalQualityCalculator` core of floppyhammer/PixelPilot
(files `SignalQualityCalculator.h` / `SignalQualityCalculator.cpp`).

Shallow embedding conventions:
* `std::chrono::steady_clock::time_point` instants are modelled as rationals;
  each public operation takes the instant `now` at which it executes as an
  explicit parameter (the source reads the clock inside the call).
* `float` / `double` arithmetic is modelled exactly over `ℚ`; the spec grants
  floating-point tolerance, and every constant involved (0.5, 126, 60, 100) is
  exact in binary floating point.
* `uint8_t` and `uint32_t` values are `ℕ`, `int8_t` values are `ℤ`; the C++
  parameter types already restrict callers to the machine ranges and the
  function bodies perform no conversions, so ingestion stores the values as
  given. Where overflow matters (the uint32 `+=` accumulation) addition is
  taken mod 2^32.
* The C-style conversion from a floating value to the `int` fields of the
  snapshot struct truncates toward zero: `truncQ`.
* The random generator behind `generate_random_string` is modelled as an
  entropy oracle `picks : ℕ → ℕ`; `std::uniform_int_distribution(0, 25)`
  yields an index in [0, 25], modelled by reducing the pick mod 26.
* The recursive mutex makes every public operation atomic; operations are
  modelled as sequential state transformers.
-/

namespace SignalQualityCalculator

/-- kAveragingWindow = std::chrono::seconds(1). -/
def kAveragingWindow : ℚ := 1

/-- RssiEntry: timestamp plus two uint8_t antenna values. -/
structure RssiEntry where
  timestamp : ℚ
  ant1 : ℕ
  ant2 : ℕ
  deriving DecidableEq, Repr

/-- SnrEntry: timestamp plus two int8_t antenna values. -/
structure SnrEntry where
  timestamp : ℚ
  ant1 : ℤ
  ant2 : ℤ
  deriving DecidableEq, Repr

/-- FecEntry: timestamp plus uint32_t counters all / recovered / lost. -/
structure FecEntry where
  timestamp : ℚ
  all : ℕ
  recovered : ℕ
  lost : ℕ
  deriving DecidableEq, Repr

/-- The mutable state of a `SignalQualityCalculator` instance: the three
sample windows and the session identifier, with its in-class initializer
`m_idr_code{"aaaa"}` captured by `initState` below. -/
structure CalcState where
  m_rssis : List RssiEntry
  m_snrs : List SnrEntry
  m_fec_data : List FecEntry
  m_idr_code : String
  deriving DecidableEq, Repr

/-- A default-constructed instance: empty windows, `m_idr_code = "aaaa"`. -/
def initState : CalcState := ⟨[], [], [], "aaaa"⟩

/-- The result struct `SignalQuality`; the five numeric fields are C `int`. -/
structure SignalQuality where
  lost_last_second : ℤ
  recovered_last_second : ℤ
  rssi : ℤ
  snr : ℤ
  link_score : ℤ
  idr_code : String
  deriving DecidableEq, Repr

/-- Truncation toward zero, the C conversion from a floating value to `int`. -/
def truncQ (q : ℚ) : ℤ := if 0 ≤ q then ⌊q⌋ else ⌈q⌉

/-- Conversion of a uint32_t value (a natural below 2^32) to a C `int`,
modelled as the two complement reinterpretation. Every value the claims
touch stays below 2^31, where this is the identity. -/
def intOfUInt32 (n : ℕ) : ℤ := if n < 2 ^ 31 then (n : ℤ) else (n : ℤ) - 2 ^ 32

/-- `characters` of `generate_random_string`. -/
def characters : List Char := "abcdefghijklmnopqrstuvwxyz".toList

/-- generate_random_string: draws `length` indices from the entropy oracle
(each draw modelling `uniform_int_distribution(0, 25)`, hence reduced
mod 26) and concatenates the corresponding characters. -/
def generate_random_string (length : ℕ) (picks : ℕ → ℕ) : String :=
  String.mk ((List.range length).map fun i => characters.getD (picks i % characters.length) 'a')

/-- The shared body of the three cleanup helpers: `std::remove_if` of the
entries with `timestamp < now - kAveragingWindow`, i.e. keep exactly the
entries with `now - kAveragingWindow ≤ timestamp`, preserving order. -/
def cleanupEntries {α : Type} (timestamp : α → ℚ) (now : ℚ) (l : List α) : List α :=
  l.filter fun e => decide (now - kAveragingWindow ≤ timestamp e)

/-- cleanup_old_rssi_data. -/
def cleanup_old_rssi_data (now : ℚ) (s : CalcState) : CalcState :=
  { s with m_rssis := cleanupEntries RssiEntry.timestamp now s.m_rssis }

/-- cleanup_old_snr_data. -/
def cleanup_old_snr_data (now : ℚ) (s : CalcState) : CalcState :=
  { s with m_snrs := cleanupEntries SnrEntry.timestamp now s.m_snrs }

/-- cleanup_old_fec_data. -/
def cleanup_old_fec_data (now : ℚ) (s : CalcState) : CalcState :=
  { s with m_fec_data := cleanupEntries FecEntry.timestamp now s.m_fec_data }

/-- add_rssi: appends an entry stamped `now`; no pruning occurs. -/
def add_rssi (now : ℚ) (ant1 ant2 : ℕ) (s : CalcState) : CalcState :=
  { s with m_rssis := s.m_rssis ++ [⟨now, ant1, ant2⟩] }

/-- add_snr: appends an entry stamped `now`; no pruning occurs. -/
def add_snr (now : ℚ) (ant1 ant2 : ℤ) (s : CalcState) : CalcState :=
  { s with m_snrs := s.m_snrs ++ [⟨now, ant1, ant2⟩] }

/-- add_fec_data: appends an entry stamped `now`; additionally, when
`p_lost > 0`, regenerates `m_idr_code` with `generate_random_string(4)`.
No pruning occurs. -/
def add_fec_data (now : ℚ) (p_all p_recovered p_lost : ℕ) (picks : ℕ → ℕ)
    (s : CalcState) : CalcState :=
  { s with
    m_fec_data := s.m_fec_data ++ [⟨now, p_all, p_recovered, p_lost⟩]
    m_idr_code :=
      if 0 < p_lost then generate_random_string 4 picks else s.m_idr_code }

/-- map_range: linear map of `value` from [inputMin, inputMax] to
[outputMin, outputMax], then clamp to [outputMin, outputMax]. -/
def map_range (value inputMin inputMax outputMin outputMax : ℚ) : ℚ :=
  let val := outputMin + (value - inputMin) * (outputMax - outputMin) / (inputMax - inputMin)
  max outputMin (min outputMax val)

/-- The arithmetic part of the `get_average` template: per-antenna float sums
divided by the count when the array is nonempty, `(0, 0)` otherwise. -/
def averagePair {α : Type} (ant1 ant2 : α → ℚ) (array : List α) : ℚ × ℚ :=
  if 0 < array.length then
    (((array.map ant1).sum) / (array.length : ℚ), ((array.map ant2).sum) / (array.length : ℚ))
  else (0, 0)

/-- `get_average(m_rssis)`: the template first runs `cleanup_old_rssi_data()`
and then averages the array it was handed — here the RSSI window itself, so
the pruned entries are averaged. -/
def get_average_rssi (now : ℚ) (s : CalcState) : (ℚ × ℚ) × CalcState :=
  let s1 := cleanup_old_rssi_data now s
  (averagePair (fun e => (e.ant1 : ℚ)) (fun e => (e.ant2 : ℚ)) s1.m_rssis, s1)

/-- `get_average(m_snrs)`: the template body runs `cleanup_old_rssi_data()`
(the RSSI window, for any array it is instantiated at) and then averages the
array it was handed — here the SNR window, which is therefore averaged
without having been pruned. -/
def get_average_snr (now : ℚ) (s : CalcState) : (ℚ × ℚ) × CalcState :=
  let s1 := cleanup_old_rssi_data now s
  (averagePair (fun e => (e.ant1 : ℚ)) (fun e => (e.ant2 : ℚ)) s1.m_snrs, s1)

/-- get_accumulated_fec_data: prunes the FEC window, returns the sentinel
`(300, 300)` if it is then empty, otherwise the uint32 sums of the
`recovered` and `lost` counters (the `all` sum is computed and dropped, as
in the source). -/
def get_accumulated_fec_data (now : ℚ) (s : CalcState) : (ℕ × ℕ) × CalcState :=
  let s1 := cleanup_old_fec_data now s
  if s1.m_fec_data = [] then ((300, 300), s1)
  else
    let _p_all := s1.m_fec_data.foldl (fun acc d => (acc + d.all) % 2 ^ 32) 0
    let p_recovered := s1.m_fec_data.foldl (fun acc d => (acc + d.recovered) % 2 ^ 32) 0
    let p_lost := s1.m_fec_data.foldl (fun acc d => (acc + d.lost) % 2 ^ 32) 0
    ((p_recovered, p_lost), s1)

/-- calculate_signal_quality, the snapshot operation, step by step as in the
source: RSSI averages (pruning the RSSI window), SNR averages (again pruning
only the RSSI window), min-max normalization, the 0.5/0.5 blend, FEC
accumulation (pruning the FEC window), max-of-antenna selection with the
float-to-int truncation of the struct assignments, the current session
identifier, and the three final cleanups. -/
def calculate_signal_quality (now : ℚ) (s : CalcState) : SignalQuality × CalcState :=
  let ar := get_average_rssi now s
  let avg_rssi := ar.1
  let s1 := ar.2
  let asn := get_average_snr now s1
  let avg_snr := asn.1
  let s2 := asn.2
  let rssi0 := map_range avg_rssi.1 0 126 0 100
  let rssi1 := map_range avg_rssi.2 0 126 0 100
  let snr0 := map_range avg_snr.1 0 60 0 100
  let snr1 := map_range avg_snr.2 0 60 0 100
  let link_score0 := (1 / 2 : ℚ) * rssi0 + (1 / 2 : ℚ) * snr0
  let link_score1 := (1 / 2 : ℚ) * rssi1 + (1 / 2 : ℚ) * snr1
  let fec := get_accumulated_fec_data now s2
  let s3 := fec.2
  let ret : SignalQuality :=
    { lost_last_second := intOfUInt32 fec.1.2
      recovered_last_second := intOfUInt32 fec.1.1
      rssi := truncQ (max avg_rssi.1 avg_rssi.2)
      snr := truncQ (max avg_snr.1 avg_snr.2)
      link_score := truncQ (max link_score0 link_score1)
      idr_code := s3.m_idr_code }
  let s4 := cleanup_old_fec_data now (cleanup_old_snr_data now (cleanup_old_rssi_data now s3))
  (ret, s4)

/-- One public call on the shared instance, tagged with the instant at which
it executes; FEC ingestion carries the entropy oracle it may consume. -/
inductive Op where
  | rssi (now : ℚ) (ant1 ant2 : ℕ)
  | snr (now : ℚ) (ant1 ant2 : ℤ)
  | fec (now : ℚ) (p_all p_recovered p_lost : ℕ) (picks : ℕ → ℕ)
  | snap (now : ℚ)

/-- Effect of one public call on the state. -/
def step (op : Op) (s : CalcState) : CalcState :=
  match op with
  | .rssi now a b => add_rssi now a b s
  | .snr now a b => add_snr now a b s
  | .fec now a r l picks => add_fec_data now a r l picks s
  | .snap now => (calculate_signal_quality now s).2

/-- Run a history of public calls from a given state. -/
def run (ops : List Op) (s : CalcState) : CalcState :=
  match ops with
  | [] => s
  | op :: rest => run rest (step op s)

/-- Holds of calls that are not an FEC ingestion observing loss. -/
def noLoss (op : Op) : Bool :=
  match op with
  | .fec _ _ _ l _ => l == 0
  | _ => true

/-- Spec-side arithmetic mean of a list of rationals; on the empty list the
quotient 0 / 0 is 0 in ℚ, matching the empty-window default. -/
def specMean (l : List ℚ) : ℚ := l.sum / (l.length : ℚ)

/-! Helper lemmas. -/

theorem averagePair_eq {α : Type} (f g : α → ℚ) (l : List α) :
    averagePair f g l = (specMean (l.map f), specMean (l.map g)) := by
  rcases l with _ | ⟨x, xs⟩
  · simp [averagePair, specMean]
  · simp [averagePair, specMean]

theorem foldl_add_mod {α : Type} (m : ℕ) (f : α → ℕ) (l : List α) (a : ℕ) :
    l.foldl (fun acc x => (acc + f x) % m) (a % m) = (a + (l.map f).sum) % m := by
  induction l generalizing a with
  | nil => simp
  | cons x xs ih =>
    simp only [List.foldl_cons, List.map_cons, List.sum_cons]
    rw [Nat.mod_add_mod, ih (a + f x), Nat.add_assoc]

theorem foldl_add_mod_zero {α : Type} (m : ℕ) (f : α → ℕ) (l : List α) :
    l.foldl (fun acc x => (acc + f x) % m) 0 = (l.map f).sum % m := by
  have h := foldl_add_mod m f l 0
  rwa [Nat.zero_mod, Nat.zero_add] at h

theorem map_range_bounds (v a b oMin oMax : ℚ) (h : oMin ≤ oMax) :
    oMin ≤ map_range v a b oMin oMax ∧ map_range v a b oMin oMax ≤ oMax := by
  unfold map_range
  exact ⟨le_max_left _ _, max_le h (min_le_left _ _)⟩

theorem truncQ_bounds {q : ℚ} (h0 : 0 ≤ q) (h1 : q ≤ 100) :
    0 ≤ truncQ q ∧ truncQ q ≤ 100 := by
  unfold truncQ
  rw [if_pos h0]
  refine ⟨Int.floor_nonneg.mpr h0, ?_⟩
  calc ⌊q⌋ ≤ ⌊(100 : ℚ)⌋ := Int.floor_le_floor h1
    _ = 100 := by norm_num

theorem calculate_idr_code (now : ℚ) (s : CalcState) :
    (calculate_signal_quality now s).1.idr_code = s.m_idr_code ∧
    (calculate_signal_quality now s).2.m_idr_code = s.m_idr_code := by
  unfold calculate_signal_quality get_average_rssi get_average_snr get_accumulated_fec_data
    cleanup_old_rssi_data cleanup_old_snr_data cleanup_old_fec_data
  by_cases h : cleanupEntries FecEntry.timestamp now s.m_fec_data = [] <;>
    simp [h]

theorem run_noLoss_idr (ops : List Op) (s : CalcState) (h : ops.all noLoss = true) :
    (run ops s).m_idr_code = s.m_idr_code := by
  induction ops generalizing s with
  | nil => rfl
  | cons op rest ih =>
    simp only [List.all_cons, Bool.and_eq_true] at h
    rw [run, ih _ h.2]
    cases op with
    | rssi now a b => rfl
    | snr now a b => rfl
    | snap now => exact (calculate_idr_code now s).2
    | fec now a r l picks =>
      have hl : l = 0 := by simpa [noLoss] using h.1
      simp [step, add_fec_data, hl]

/-! Claim theorems. -/

/-- C1, counterexample: ingestion does not prune. Record an RSSI sample at
instant 0, then record another at instant 10 (window 1): after the second
ingestion returns, the sample stamped 0 is still retained although it is
older than the window duration as of the ingestion time. -/
theorem C1_counterexample :
    ((run [Op.rssi 0 5 5, Op.rssi 10 7 7] initState).m_rssis
      = [⟨0, 5, 5⟩, ⟨10, 7, 7⟩]) ∧
    ¬ (∀ e ∈ (run [Op.rssi 0 5 5, Op.rssi 10 7 7] initState).m_rssis,
        10 - kAveragingWindow ≤ e.timestamp) := by
  refine ⟨rfl, ?_⟩
  intro hall
  have h := hall ⟨0, 5, 5⟩ (by rw [show (run [Op.rssi 0 5 5, Op.rssi 10 7 7] initState).m_rssis
    = [⟨0, 5, 5⟩, ⟨10, 7, 7⟩] from rfl]; exact List.mem_cons_self _ _)
  norm_num [kAveragingWindow] at h

/-- C1 (amended): no ingestion operation prunes any window. Each of
add_rssi / add_snr / add_fec_data appends its new sample at the end of its
own window, keeps every previously retained sample (expired or not), and
leaves the other two windows untouched; pruning happens only through the
cleanup helpers invoked on the snapshot path. -/
theorem C1_amended (now : ℚ) (s : CalcState) (na nb : ℕ) (sa sb : ℤ)
    (a r l : ℕ) (picks : ℕ → ℕ) :
    (add_rssi now na nb s).m_rssis = s.m_rssis ++ [⟨now, na, nb⟩] ∧
    (add_snr now sa sb s).m_snrs = s.m_snrs ++ [⟨now, sa, sb⟩] ∧
    (add_fec_data now a r l picks s).m_fec_data = s.m_fec_data ++ [⟨now, a, r, l⟩] ∧
    (add_rssi now na nb s).m_snrs = s.m_snrs ∧
    (add_rssi now na nb s).m_fec_data = s.m_fec_data ∧
    (add_snr now sa sb s).m_rssis = s.m_rssis ∧
    (add_snr now sa sb s).m_fec_data = s.m_fec_data ∧
    (add_fec_data now a r l picks s).m_rssis = s.m_rssis ∧
    (add_fec_data now a r l picks s).m_snrs = s.m_snrs :=
  ⟨rfl, rfl, rfl, rfl, rfl, rfl, rfl, rfl, rfl⟩

/-- C2: evaluation of the code at the failing input. Two SNR samples
(10, 10) and (30, 30) recorded at instant 0 are both expired at a snapshot
taken at instant 2 (the pruned SNR window is empty), yet the snapshot
reports snr = 20, the average of the two expired samples: the get_average
template prunes the RSSI window even when it is averaging the SNR window,
so every stale SNR sample since the previous cleanup contributes, not at
most one. The RSSI stream, by contrast, behaves as claimed: a lone RSSI
sample from instant 0 yields rssi = 0 at instant 2. -/
theorem C2_code_bug_eval :
    ((calculate_signal_quality 2 (run [Op.snr 0 10 10, Op.snr 0 30 30] initState)).1.snr = 20) ∧
    ((cleanup_old_snr_data 2 (run [Op.snr 0 10 10, Op.snr 0 30 30] initState)).m_snrs = []) ∧
    ((calculate_signal_quality 2 (run [Op.rssi 0 10 10] initState)).1.rssi = 0) := by
  have hrun : run [Op.snr 0 10 10, Op.snr 0 30 30] initState
      = ⟨[], [⟨0, 10, 10⟩, ⟨0, 30, 30⟩], [], "aaaa"⟩ := rfl
  have hrun2 : run [Op.rssi 0 10 10] initState = ⟨[⟨0, 10, 10⟩], [], [], "aaaa"⟩ := rfl
  rw [hrun, hrun2]
  refine ⟨?_, ?_, ?_⟩
  · norm_num [calculate_signal_quality, get_average_rssi, get_average_snr,
      get_accumulated_fec_data, cleanup_old_rssi_data, cleanup_old_snr_data,
      cleanup_old_fec_data, cleanupEntries, averagePair, map_range, truncQ,
      kAveragingWindow, List.filter]
  · norm_num [cleanup_old_snr_data, cleanupEntries, kAveragingWindow, List.filter]
  · norm_num [calculate_signal_quality, get_average_rssi, get_average_snr,
      get_accumulated_fec_data, cleanup_old_rssi_data, cleanup_old_snr_data,
      cleanup_old_fec_data, cleanupEntries, averagePair, map_range, truncQ,
      kAveragingWindow, List.filter]

/-- C4, counterexample: the reported rssi field is a C `int`, so it is the
truncation of the max-of-antennas mean, not the mean itself. With the two
in-window RSSI samples (0, 0) and (1, 1) both antenna means are 1/2, yet
the snapshot reports rssi = 0, which differs from 1/2 by far more than any
floating-point tolerance. -/
theorem C4_counterexample :
    ((calculate_signal_quality 1 (run [Op.rssi 1 0 0, Op.rssi 1 1 1] initState)).1.rssi = 0) ∧
    (max
      (specMean ((cleanupEntries RssiEntry.timestamp 1
        (run [Op.rssi 1 0 0, Op.rssi 1 1 1] initState).m_rssis).map fun e => (e.ant1 : ℚ)))
      (specMean ((cleanupEntries RssiEntry.timestamp 1
        (run [Op.rssi 1 0 0, Op.rssi 1 1 1] initState).m_rssis).map fun e => (e.ant2 : ℚ)))
      = 1 / 2) ∧
    ¬ (((calculate_signal_quality 1 (run [Op.rssi 1 0 0, Op.rssi 1 1 1] initState)).1.rssi : ℚ)
      = max
        (specMean ((cleanupEntries RssiEntry.timestamp 1
          (run [Op.rssi 1 0 0, Op.rssi 1 1 1] initState).m_rssis).map fun e => (e.ant1 : ℚ)))
        (specMean ((cleanupEntries RssiEntry.timestamp 1
          (run [Op.rssi 1 0 0, Op.rssi 1 1 1] initState).m_rssis).map fun e => (e.ant2 : ℚ)))) := by
  have hrun : run [Op.rssi 1 0 0, Op.rssi 1 1 1] initState
      = ⟨[⟨1, 0, 0⟩, ⟨1, 1, 1⟩], [], [], "aaaa"⟩ := rfl
  rw [hrun]
  refine ⟨?_, ?_, ?_⟩
  · norm_num [calculate_signal_quality, get_average_rssi, get_average_snr,
      get_accumulated_fec_data, cleanup_old_rssi_data, cleanup_old_snr_data,
      cleanup_old_fec_data, cleanupEntries, averagePair, map_range, truncQ,
      kAveragingWindow, List.filter]
  · norm_num [cleanupEntries, specMean, kAveragingWindow, List.filter]
  · norm_num [calculate_signal_quality, get_average_rssi, get_average_snr,
      get_accumulated_fec_data, cleanup_old_rssi_data, cleanup_old_snr_data,
      cleanup_old_fec_data, cleanupEntries, averagePair, specMean, map_range, truncQ,
      kAveragingWindow, List.filter]

/-- C4 (amended): the reported rssi field equals the truncation toward zero
of max(mean(ant1), mean(ant2)) over the RSSI samples retained after the
internal RSSI pruning (empty window giving mean 0), and the snr field
equals the truncation toward zero of the maximum of the two per-antenna
means over the SNR samples retained in the window at read time (which the
snapshot path has not pruned); both use raw, non-normalized means. -/
theorem C4_amended (now : ℚ) (s : CalcState) :
    ((calculate_signal_quality now s).1.rssi
      = truncQ (max
          (specMean ((cleanupEntries RssiEntry.timestamp now s.m_rssis).map fun e => (e.ant1 : ℚ)))
          (specMean ((cleanupEntries RssiEntry.timestamp now s.m_rssis).map fun e => (e.ant2 : ℚ))))) ∧
    ((calculate_signal_quality now s).1.snr
      = truncQ (max
          (specMean (s.m_snrs.map fun e => (e.ant1 : ℚ)))
          (specMean (s.m_snrs.map fun e => (e.ant2 : ℚ))))) := by
  unfold calculate_signal_quality get_average_rssi get_average_snr cleanup_old_rssi_data
  simp only [averagePair_eq]
  exact ⟨trivial, trivial⟩

/-- Bounds of the truncated blended score: each normalized value is clamped
into [0, 100], the 0.5/0.5 blend stays in [0, 100], and so does the
truncation of the max of the two blends. -/
theorem blend_trunc_bounds (r0 r1 q0 q1 : ℚ) :
    0 ≤ truncQ (max ((1 / 2 : ℚ) * map_range r0 0 126 0 100 + (1 / 2 : ℚ) * map_range q0 0 60 0 100)
                    ((1 / 2 : ℚ) * map_range r1 0 126 0 100 + (1 / 2 : ℚ) * map_range q1 0 60 0 100)) ∧
    truncQ (max ((1 / 2 : ℚ) * map_range r0 0 126 0 100 + (1 / 2 : ℚ) * map_range q0 0 60 0 100)
                ((1 / 2 : ℚ) * map_range r1 0 126 0 100 + (1 / 2 : ℚ) * map_range q1 0 60 0 100)) ≤ 100 := by
  have hr0 := map_range_bounds r0 0 126 0 100 (by norm_num)
  have hr1 := map_range_bounds r1 0 126 0 100 (by norm_num)
  have hq0 := map_range_bounds q0 0 60 0 100 (by norm_num)
  have hq1 := map_range_bounds q1 0 60 0 100 (by norm_num)
  apply truncQ_bounds
  · apply le_max_of_le_left
    linarith [hr0.1, hq0.1]
  · apply max_le <;> linarith [hr0.2, hq0.2, hr1.2, hq1.2]

/-- C5, counterexample: the link_score field is a C `int`. With one
in-window RSSI sample (1, 1) and no SNR samples the blended score is
0.5 * (100/126) + 0.5 * 0 = 25/63 on both antennas, yet the snapshot
reports link_score = 0, which is not equal to 25/63. -/
theorem C5_counterexample :
    ((calculate_signal_quality 1 (run [Op.rssi 1 1 1] initState)).1.link_score = 0) ∧
    (max
      ((1 / 2 : ℚ) * map_range (specMean ((cleanupEntries RssiEntry.timestamp 1
          (run [Op.rssi 1 1 1] initState).m_rssis).map fun e => (e.ant1 : ℚ))) 0 126 0 100
        + (1 / 2 : ℚ) * map_range (specMean ((run [Op.rssi 1 1 1] initState).m_snrs.map
            fun e => (e.ant1 : ℚ))) 0 60 0 100)
      ((1 / 2 : ℚ) * map_range (specMean ((cleanupEntries RssiEntry.timestamp 1
          (run [Op.rssi 1 1 1] initState).m_rssis).map fun e => (e.ant2 : ℚ))) 0 126 0 100
        + (1 / 2 : ℚ) * map_range (specMean ((run [Op.rssi 1 1 1] initState).m_snrs.map
            fun e => (e.ant2 : ℚ))) 0 60 0 100)
      = 25 / 63) ∧
    ¬ (((calculate_signal_quality 1 (run [Op.rssi 1 1 1] initState)).1.link_score : ℚ)
      = max
        ((1 / 2 : ℚ) * map_range (specMean ((cleanupEntries RssiEntry.timestamp 1
            (run [Op.rssi 1 1 1] initState).m_rssis).map fun e => (e.ant1 : ℚ))) 0 126 0 100
          + (1 / 2 : ℚ) * map_range (specMean ((run [Op.rssi 1 1 1] initState).m_snrs.map
              fun e => (e.ant1 : ℚ))) 0 60 0 100)
        ((1 / 2 : ℚ) * map_range (specMean ((cleanupEntries RssiEntry.timestamp 1
            (run [Op.rssi 1 1 1] initState).m_rssis).map fun e => (e.ant2 : ℚ))) 0 126 0 100
          + (1 / 2 : ℚ) * map_range (specMean ((run [Op.rssi 1 1 1] initState).m_snrs.map
              fun e => (e.ant2 : ℚ))) 0 60 0 100)) := by
  have hrun : run [Op.rssi 1 1 1] initState = ⟨[⟨1, 1, 1⟩], [], [], "aaaa"⟩ := rfl
  rw [hrun]
  refine ⟨?_, ?_, ?_⟩
  · norm_num [calculate_signal_quality, get_average_rssi, get_average_snr,
      get_accumulated_fec_data, cleanup_old_rssi_data, cleanup_old_snr_data,
      cleanup_old_fec_data, cleanupEntries, averagePair, map_range, truncQ,
      kAveragingWindow, List.filter]
  · norm_num [cleanupEntries, specMean, map_range, kAveragingWindow, List.filter]
  · norm_num [calculate_signal_quality, get_average_rssi, get_average_snr,
      get_accumulated_fec_data, cleanup_old_rssi_data, cleanup_old_snr_data,
      cleanup_old_fec_data, cleanupEntries, averagePair, specMean, map_range, truncQ,
      kAveragingWindow, List.filter]

/-- C5 (amended): the reported link_score equals the truncation toward zero
of the maximum over the two antenna indices of
0.5 * normalizedRSSI + 0.5 * normalizedSNR (normalized by the clamped
linear maps from [0,126] and [0,60] onto [0,100]), and for every state and
instant the reported link_score lies in [0, 100]. -/
theorem C5_amended (now : ℚ) (s : CalcState) :
    ((calculate_signal_quality now s).1.link_score
      = truncQ (max
          ((1 / 2 : ℚ) * map_range (specMean ((cleanupEntries RssiEntry.timestamp now s.m_rssis).map
              fun e => (e.ant1 : ℚ))) 0 126 0 100
            + (1 / 2 : ℚ) * map_range (specMean (s.m_snrs.map fun e => (e.ant1 : ℚ))) 0 60 0 100)
          ((1 / 2 : ℚ) * map_range (specMean ((cleanupEntries RssiEntry.timestamp now s.m_rssis).map
              fun e => (e.ant2 : ℚ))) 0 126 0 100
            + (1 / 2 : ℚ) * map_range (specMean (s.m_snrs.map fun e => (e.ant2 : ℚ))) 0 60 0 100))) ∧
    0 ≤ (calculate_signal_quality now s).1.link_score ∧
    (calculate_signal_quality now s).1.link_score ≤ 100 := by
  have heq : (calculate_signal_quality now s).1.link_score
      = truncQ (max
          ((1 / 2 : ℚ) * map_range (specMean ((cleanupEntries RssiEntry.timestamp now s.m_rssis).map
              fun e => (e.ant1 : ℚ))) 0 126 0 100
            + (1 / 2 : ℚ) * map_range (specMean (s.m_snrs.map fun e => (e.ant1 : ℚ))) 0 60 0 100)
          ((1 / 2 : ℚ) * map_range (specMean ((cleanupEntries RssiEntry.timestamp now s.m_rssis).map
              fun e => (e.ant2 : ℚ))) 0 126 0 100
            + (1 / 2 : ℚ) * map_range (specMean (s.m_snrs.map fun e => (e.ant2 : ℚ))) 0 60 0 100)) := by
    unfold calculate_signal_quality get_average_rssi get_average_snr cleanup_old_rssi_data
    simp only [averagePair_eq]
  refine ⟨heq, ?_⟩
  rw [heq]
  exact blend_trunc_bounds _ _ _ _

/-- C6: the normalization map sends domain boundaries exactly to the range
boundaries (RSSI: mean 0 to 0 and mean 126 to 100; SNR: mean 0 to 0 and
mean 60 to 100), and every mean, in-domain or not, is clamped into
[0, 100]. -/
theorem C6_normalization_clamps :
    map_range 0 0 126 0 100 = 0 ∧ map_range 126 0 126 0 100 = 100 ∧
    map_range 0 0 60 0 100 = 0 ∧ map_range 60 0 60 0 100 = 100 ∧
    (∀ v : ℚ, 0 ≤ map_range v 0 126 0 100 ∧ map_range v 0 126 0 100 ≤ 100) ∧
    (∀ v : ℚ, 0 ≤ map_range v 0 60 0 100 ∧ map_range v 0 60 0 100 ≤ 100) := by
  refine ⟨by norm_num [map_range], by norm_num [map_range], by norm_num [map_range],
    by norm_num [map_range], fun v => map_range_bounds v 0 126 0 100 (by norm_num),
    fun v => map_range_bounds v 0 60 0 100 (by norm_num)⟩

/-- C7: the session identifier is regenerated (to the fresh 4-character
lowercase-alphabetic string drawn from the entropy oracle) exactly when an
FEC sample with lost > 0 is ingested, once per such call; FEC ingestion
with lost = 0, RSSI/SNR ingestion and the snapshot operation never change
it. -/
theorem C7_session_identifier (now : ℚ) (a r l : ℕ) (picks : ℕ → ℕ) (s : CalcState)
    (na nb : ℕ) (sa sb : ℤ) :
    ((add_fec_data now a r l picks s).m_idr_code
        = if 0 < l then generate_random_string 4 picks else s.m_idr_code) ∧
    (generate_random_string 4 picks).length = 4 ∧
    ((generate_random_string 4 picks).toList.all
        (fun c => decide ('a' ≤ c) && decide (c ≤ 'z')) = true) ∧
    (add_rssi now na nb s).m_idr_code = s.m_idr_code ∧
    (add_snr now sa sb s).m_idr_code = s.m_idr_code ∧
    (calculate_signal_quality now s).1.idr_code = s.m_idr_code ∧
    (calculate_signal_quality now s).2.m_idr_code = s.m_idr_code := by
  refine ⟨rfl, ?_, ?_, rfl, rfl, (calculate_idr_code now s).1, (calculate_idr_code now s).2⟩
  · simp [generate_random_string, String.length]
  · have hc : ∀ n : ℕ, n < 26 →
        ('a' ≤ characters.getD n 'a' ∧ characters.getD n 'a' ≤ 'z') := by decide
    simp only [generate_random_string, List.all_eq_true]
    intro c hcm
    have : c ∈ (List.range 4).map fun i => characters.getD (picks i % characters.length) 'a' := hcm
    rcases List.mem_map.mp this with ⟨i, _, hici⟩
    have h26 : picks i % characters.length < 26 := by
      have : characters.length = 26 := by decide
      rw [this]
      exact Nat.mod_lt _ (by norm_num)
    have := hc _ h26
    rw [← hici] at *
    simp only [Bool.and_eq_true, decide_eq_true_eq]
    exact ⟨this.1, this.2⟩

/-- C8: within each window samples stay in arrival order: every ingestion
appends its sample at the end (the previous window is kept, in order, as a
sublist, and the new sample is the last element), and each pruning helper
returns an order-preserving sublist of its window. -/
theorem C8_arrival_order (now : ℚ) (s : CalcState) (na nb : ℕ) (sa sb : ℤ)
    (a r l : ℕ) (picks : ℕ → ℕ) :
    List.Sublist s.m_rssis (add_rssi now na nb s).m_rssis ∧
    (add_rssi now na nb s).m_rssis.getLast? = some ⟨now, na, nb⟩ ∧
    List.Sublist s.m_snrs (add_snr now sa sb s).m_snrs ∧
    (add_snr now sa sb s).m_snrs.getLast? = some ⟨now, sa, sb⟩ ∧
    List.Sublist s.m_fec_data (add_fec_data now a r l picks s).m_fec_data ∧
    (add_fec_data now a r l picks s).m_fec_data.getLast? = some ⟨now, a, r, l⟩ ∧
    List.Sublist (cleanup_old_rssi_data now s).m_rssis s.m_rssis ∧
    List.Sublist (cleanup_old_snr_data now s).m_snrs s.m_snrs ∧
    List.Sublist (cleanup_old_fec_data now s).m_fec_data s.m_fec_data := by
  refine ⟨List.sublist_append_left _ _, List.getLast?_concat _,
    List.sublist_append_left _ _, List.getLast?_concat _,
    List.sublist_append_left _ _, List.getLast?_concat _,
    List.filter_sublist _, List.filter_sublist _, List.filter_sublist _⟩

/-- C3: on any snapshot, if the FEC window is empty once pruned to the
window duration the reported counters are the sentinel pair (300, 300)
exactly; otherwise they are the sums of the recovered and lost counters of
the retained FEC samples (stated under the hypothesis that the sums fit an
`int`, where the uint32 accumulation and the int conversion are exact). -/
theorem C3_fec_sentinel_and_sums (now : ℚ) (s : CalcState)
    (hr : (((cleanupEntries FecEntry.timestamp now s.m_fec_data).map FecEntry.recovered).sum) < 2 ^ 31)
    (hl : (((cleanupEntries FecEntry.timestamp now s.m_fec_data).map FecEntry.lost).sum) < 2 ^ 31) :
    ((calculate_signal_quality now s).1.recovered_last_second,
        (calculate_signal_quality now s).1.lost_last_second)
      = if cleanupEntries FecEntry.timestamp now s.m_fec_data = []
        then ((300 : ℤ), (300 : ℤ))
        else ((((cleanupEntries FecEntry.timestamp now s.m_fec_data).map FecEntry.recovered).sum : ℤ),
              (((cleanupEntries FecEntry.timestamp now s.m_fec_data).map FecEntry.lost).sum : ℤ)) := by
  unfold calculate_signal_quality get_average_rssi get_average_snr get_accumulated_fec_data
    cleanup_old_rssi_data cleanup_old_fec_data
  by_cases h : cleanupEntries FecEntry.timestamp now s.m_fec_data = []
  · simp [h, intOfUInt32]
  · simp only [h, if_neg, ite_false]
    rw [foldl_add_mod_zero, foldl_add_mod_zero]
    have hr32 : ((cleanupEntries FecEntry.timestamp now s.m_fec_data).map FecEntry.recovered).sum % 2 ^ 32
        = ((cleanupEntries FecEntry.timestamp now s.m_fec_data).map FecEntry.recovered).sum :=
      Nat.mod_eq_of_lt (lt_trans hr (by norm_num))
    have hl32 : ((cleanupEntries FecEntry.timestamp now s.m_fec_data).map FecEntry.lost).sum % 2 ^ 32
        = ((cleanupEntries FecEntry.timestamp now s.m_fec_data).map FecEntry.lost).sum :=
      Nat.mod_eq_of_lt (lt_trans hl (by norm_num))
    rw [hr32, hl32]
    simp only [intOfUInt32]
    rw [if_pos (by omega), if_pos (by omega)]

/-- C3, witness: a snapshot at instant 0 over the single retained FEC
sample (all 10, recovered 3, lost 2) reports the sums (3, 2). -/
theorem C3_fec_sentinel_and_sums_witness :
    ((((cleanupEntries FecEntry.timestamp 0
        (⟨[], [], [⟨0, 10, 3, 2⟩], "aaaa"⟩ : CalcState).m_fec_data).map FecEntry.recovered).sum) < 2 ^ 31) ∧
    ((((cleanupEntries FecEntry.timestamp 0
        (⟨[], [], [⟨0, 10, 3, 2⟩], "aaaa"⟩ : CalcState).m_fec_data).map FecEntry.lost).sum) < 2 ^ 31) ∧
    (((calculate_signal_quality 0 ⟨[], [], [⟨0, 10, 3, 2⟩], "aaaa"⟩).1.recovered_last_second,
        (calculate_signal_quality 0 ⟨[], [], [⟨0, 10, 3, 2⟩], "aaaa"⟩).1.lost_last_second)
      = if cleanupEntries FecEntry.timestamp 0
            (⟨[], [], [⟨0, 10, 3, 2⟩], "aaaa"⟩ : CalcState).m_fec_data = []
        then ((300 : ℤ), (300 : ℤ))
        else ((((cleanupEntries FecEntry.timestamp 0
                  (⟨[], [], [⟨0, 10, 3, 2⟩], "aaaa"⟩ : CalcState).m_fec_data).map FecEntry.recovered).sum : ℤ),
              (((cleanupEntries FecEntry.timestamp 0
                  (⟨[], [], [⟨0, 10, 3, 2⟩], "aaaa"⟩ : CalcState).m_fec_data).map FecEntry.lost).sum : ℤ))) :=
  ⟨by norm_num [cleanupEntries, kAveragingWindow, List.filter],
   by norm_num [cleanupEntries, kAveragingWindow, List.filter],
   C3_fec_sentinel_and_sums 0 ⟨[], [], [⟨0, 10, 3, 2⟩], "aaaa"⟩
     (by norm_num [cleanupEntries, kAveragingWindow, List.filter])
     (by norm_num [cleanupEntries, kAveragingWindow, List.filter])⟩

/-- C10: a default-constructed instance has session identifier "aaaa", and
after any history of public calls containing no FEC ingestion with
lost > 0, the identifier is still "aaaa" and a snapshot taken at any
instant reports session identifier "aaaa". -/
theorem C10_initial_session_id (ops : List Op) (h : ops.all noLoss = true) (now : ℚ) :
    (run ops initState).m_idr_code = "aaaa" ∧
    (calculate_signal_quality now (run ops initState)).1.idr_code = "aaaa" := by
  have h1 : (run ops initState).m_idr_code = "aaaa" := run_noLoss_idr ops initState h
  exact ⟨h1, ((calculate_idr_code now (run ops initState)).1).trans h1⟩

/-- C10, witness: a concrete loss-free history (one RSSI sample, one FEC
sample with lost = 0, one snapshot) keeps the identifier at "aaaa". -/
theorem C10_initial_session_id_witness :
    (([Op.rssi 0 5 6, Op.fec 0 10 2 0 (fun _ => 3), Op.snap 1].all noLoss) = true) ∧
    ((run [Op.rssi 0 5 6, Op.fec 0 10 2 0 (fun _ => 3), Op.snap 1] initState).m_idr_code = "aaaa" ∧
      (calculate_signal_quality 1
        (run [Op.rssi 0 5 6, Op.fec 0 10 2 0 (fun _ => 3), Op.snap 1] initState)).1.idr_code
        = "aaaa") :=
  ⟨rfl, C10_initial_session_id [Op.rssi 0 5 6, Op.fec 0 10 2 0 (fun _ => 3), Op.snap 1] rfl 1⟩

end SignalQualityCalculator
